import Mathlib

/-!
Verification of the OpenGIN tutorial ingestion script
(`tutorials/my_first_opengin_app.py`).

The script reads tabular data (entities, relationships, expense/income
tables, a metadata map), builds JSON entity payloads and ingests them into
a graph store in two phases: create without relationships, then update
with relationships.  This file gives a shallow embedding of the pure data
transformations of that script and proves the specified properties about
them.

Modelling conventions:
- Python dicts built field-by-field become `Json.obj` association lists
  (field presence is observable, as the specification talks about fields
  being present or absent).
- pandas `DataFrame`s become a list of column names plus a list of rows,
  each row a list of cells aligned with the column list (CSV-loaded frames
  are rectangular; a missing cell stringifies to "nan" like a pandas NaN).
- `requests` responses are modelled by their status code and body text,
  the only parts the script inspects.
- `datetime.now()` returns the *naive local* wall-clock time; the clock is
  modelled as a pair of rendered readings (UTC and local) so that the
  relationship between the emitted timestamp and UTC is expressible.
- String `.lower()` is modelled with `Char.toLower` (ASCII case mapping),
  which agrees with Python on the ASCII identifiers the script handles.
-/

namespace OpenGIN

/-- A JSON-shaped value: the payloads the script builds are nested Python
dicts/lists of strings.  Objects keep insertion order, as Python dicts do. -/
inductive Json where
  | str : String → Json
  | arr : List Json → Json
  | obj : List (String × Json) → Json

/-- Key lookup in an association list of JSON fields (first match wins,
mirroring Python dict key access). -/
def lookupPairs (k : String) : List (String × Json) → Option Json
  | [] => none
  | (k2, v) :: rest => if k = k2 then some v else lookupPairs k rest

/-- Field access on a JSON object; `none` on a non-object or missing key. -/
def Json.lookupKey (j : Json) (k : String) : Option Json :=
  match j with
  | .obj fields => lookupPairs k fields
  | _ => none

/-- A cell value as loaded from CSV: a string or an integer. -/
inductive PyVal where
  | str : String → PyVal
  | int : Int → PyVal
deriving DecidableEq

/-- Python `str(...)` on a cell value, as applied by `.astype(str)`. -/
def PyVal.pyStr : PyVal → String
  | .str s => s
  | .int n => toString n

/-- A pandas DataFrame: column names plus rows of cells aligned with the
column list. -/
structure DataFrame where
  cols : List String
  rows : List (List PyVal)
deriving DecidableEq

/-- The empty frame `pd.DataFrame()`. -/
def DataFrame.emptyFrame : DataFrame := ⟨[], []⟩

/-- The cell of `row` in column `c` of frame `df`; "nan" (a pandas NaN
stringified) when the column or cell is missing. -/
def DataFrame.cell (df : DataFrame) (row : List PyVal) (c : String) : PyVal :=
  (row.get? (df.cols.indexOf c)).getD (.str "nan")

/-- Boolean-mask row filtering `df[df[c] == eid]` (column `c` holds
strings; an `eid` match requires an equal string cell). -/
def DataFrame.filterEq (df : DataFrame) (c : String) (eid : String) : DataFrame :=
  ⟨df.cols, df.rows.filter (fun r => decide (df.cell r c = .str eid))⟩

/-- `df[columns].astype(str).values.tolist()`: project every row onto
`columns` in the requested order and stringify each cell.  Selecting a
column that is not in the frame raises a `KeyError` in pandas, modelled as
an `Except.error`. -/
def DataFrame.projectStr (df : DataFrame) (columns : List String) :
    Except String (List (List String)) :=
  if columns.all (fun c => df.cols.contains c) then
    .ok (df.rows.map (fun r => columns.map (fun c => (df.cell r c).pyStr)))
  else
    .error "KeyError"

/-- A row of `entities.csv`, with the columns the script reads. -/
structure EntityRow where
  id : String
  name : String
  start_time : String
  kind_major : String
  kind_minor : String
deriving DecidableEq

/-- A row of `relationships.csv`, with the columns the script reads. -/
structure RelRow where
  from_id : String
  to_id : String
  relation : String
  start_time : String
deriving DecidableEq

/-- The metadata document: entity identifier → ordered key/value pairs. -/
def Metadata := List (String × List (String × Json))

/-- The environment clock.  Python's `datetime.now()` with no timezone
argument returns the *local* wall-clock time as a naive datetime; we keep
both the UTC rendering and the local rendering of the instant at which the
script encodes, so the relation of the emitted string to UTC is statable. -/
structure Clock where
  utcNowIso : String
  localNowIso : String

/-- `datetime.now().isoformat()`: the rendering of the naive local time. -/
def datetime_now_isoformat (c : Clock) : String := c.localNowIso

/-- Python `str.lower()` restricted to ASCII case mapping. -/
def pyLower (s : String) : String := ⟨s.data.map Char.toLower⟩

/-- The JSON value produced by `create_tabular_attribute` for a non-empty
frame: the projected table wrapped in a one-entry time-versioned envelope
stamped `now + "Z"`. -/
def tabular_attr_json (now key : String) (relevant_columns : List String)
    (rows : List (List String)) : Json :=
  .obj [("key", .str key),
        ("value", .obj [("values", .arr [
          .obj [("startTime", .str (now ++ "Z")),
                ("value", .obj [("columns", .arr (relevant_columns.map .str)),
                                ("rows", .arr (rows.map (fun r => .arr (r.map .str))))])]])])]

/-- `create_tabular_attribute(key, df, relevant_columns)` (lines 43-80):
`None` for an empty frame, otherwise the projected, stringified table in a
single-entry time-versioned envelope whose `startTime` is
`datetime.now().isoformat() + "Z"` (passed in as `now`). -/
def create_tabular_attribute (now key : String) (df : DataFrame)
    (relevant_columns : List String) : Except String (Option Json) :=
  if df.rows.isEmpty then .ok none
  else
    match df.projectStr relevant_columns with
    | .error e => .error e
    | .ok rows => .ok (some (tabular_attr_json now key relevant_columns rows))

/-- The synthesized relationship-instance identifier (line 131):
`f"rel-{entity_id}-to-{rel.to_id}".lower()`. -/
def rel_id (entity_id to_id : String) : String :=
  pyLower ("rel-" ++ entity_id ++ "-to-" ++ to_id)

/-- One relationship entry of the payload (lines 128-144). -/
def rel_payload_json (entity_id : String) (rel : RelRow) : Json :=
  .obj [("key", .str rel.relation),
        ("value", .obj [("relatedEntityId", .str rel.to_id),
                        ("startTime", .str rel.start_time),
                        ("endTime", .str ""),
                        ("id", .str (rel_id entity_id rel.to_id)),
                        ("name", .str rel.relation)])]

/-- The flattened metadata entries of one entity (lines 105-107). -/
def meta_entries (entity_id : String) (metadata : Metadata) : List Json :=
  match List.lookup entity_id metadata with
  | some kvs => kvs.map (fun kv => Json.obj [("key", .str kv.1), ("value", kv.2)])
  | none => []

/-- One attribute-table block of `construct_payload` (lines 110-114 for
expenses, 117-121 for income): guard the foreign-key column lookup with a
membership test, filter the rows belonging to the entity, and encode them
unless the filtered frame is empty. -/
def entity_attr_for (now key : String) (source : DataFrame) (entity_id : String)
    (relevant_columns : List String) : Except String (Option Json) :=
  let filtered :=
    if !source.rows.isEmpty && source.cols.contains "RelatedEntityID" then
      source.filterEq "RelatedEntityID" entity_id
    else DataFrame.emptyFrame
  if filtered.rows.isEmpty then .ok none
  else create_tabular_attribute now key filtered relevant_columns

/-- The ordered field list of the payload dict: the base literal of lines
86-96 holding the final collection values, then the conditionally inserted
`kind` key of lines 98-102. -/
def payload_fields (entity_id : String) (entity : EntityRow)
    (metaList attrList relList : List Json) (exclude_kind : Bool) :
    List (String × Json) :=
  [("id", .str entity_id),
   ("created", .str entity.start_time),
   ("name", .obj [("startTime", .str entity.start_time), ("value", .str entity.name)]),
   ("metadata", .arr metaList),
   ("attributes", .arr attrList),
   ("relationships", .arr relList)]
  ++ (if exclude_kind then []
      else [("kind", Json.obj [("major", .str entity.kind_major),
                               ("minor", .str entity.kind_minor)])])

/-- `construct_payload` (lines 82-146).  `now` stands for the
`datetime.now().isoformat()` reading used by the attribute encoder; a
pandas `KeyError` raised while selecting attribute columns surfaces as an
`Except.error`. -/
def construct_payload (now entity_id : String) (entity : EntityRow)
    (relationships : List RelRow) (expenses income : DataFrame)
    (metadata : Metadata) (include_relationships exclude_kind : Bool) :
    Except String Json :=
  match entity_attr_for now "expenses" expenses entity_id ["Month", "Category", "Amount"] with
  | .error e => .error e
  | .ok exAttr =>
    match entity_attr_for now "income" income entity_id ["Month", "Source", "Amount"] with
    | .error e => .error e
    | .ok inAttr =>
      .ok (.obj (payload_fields entity_id entity
        (meta_entries entity_id metadata)
        (exAttr.toList ++ inAttr.toList)
        (if include_relationships then
          ((relationships.filter (fun r => r.from_id == entity_id)).map
            (rel_payload_json entity_id))
         else [])
        exclude_kind))

/-- Substring search on character lists: Python's `sub in s`. -/
def listContainsSub (sub : List Char) : List Char → Bool
  | [] => sub.isEmpty
  | c :: cs => sub.isPrefixOf (c :: cs) || listContainsSub sub cs

/-- Python's `sub in s` on strings. -/
def pyIn (sub s : String) : Bool := listContainsSub sub.data s.data

/-- The boolean outcome `send_request` reports for a response with the
given status code and body text (lines 156-171): success statuses 200/201,
then the two tolerated error bodies, everything else a failure. -/
def send_request_outcome (status : Nat) (body : String) : Bool :=
  if status = 200 || status = 201 then true
  else if pyIn "already exists" body then true
  else if pyIn "cannot update immutable fields" body then true
  else false

/-- The outcome list of a Phase-1 run in which entity `e` receives the
response `responses e.id` (lines 186-191): one create per entity row, in
load order. -/
def phase1_results (entities : List EntityRow) (responses : String → Nat × String) :
    List Bool :=
  entities.map (fun e => send_request_outcome (responses e.id).1 (responses e.id).2)

/-- The identifiers that receive a Phase-2 update call (lines 211-224):
the loop walks all entity rows and issues a PUT exactly for those whose
identifier occurs in `relationships["from_id"].unique()`. -/
def phase2_targets (entities : List EntityRow) (relationships : List RelRow) :
    List String :=
  let entities_with_rels := (relationships.map RelRow.from_id).dedup
  (entities.filter (fun e => entities_with_rels.contains e.id)).map EntityRow.id

/-- The history-entry list of an encoded attribute (its `value.values`). -/
def attrHistoryEntries (a : Json) : Option (List Json) :=
  match (a.lookupKey "value").bind (fun v => v.lookupKey "values") with
  | some (.arr l) => some l
  | _ => none

/-- The `startTime` of the first history entry of an encoded attribute. -/
def attrValidFrom (a : Json) : Option Json :=
  match attrHistoryEntries a with
  | some (e :: _) => e.lookupKey "startTime"
  | _ => none

/-- The `endTime` of the first history entry of an encoded attribute
(never present: the envelope is open-ended). -/
def attrValidTo (a : Json) : Option Json :=
  match attrHistoryEntries a with
  | some (e :: _) => e.lookupKey "endTime"
  | _ => none

/-- The `columns` list of the table value inside an encoded attribute. -/
def attrTableColumns (a : Json) : Option Json :=
  match attrHistoryEntries a with
  | some (e :: _) => (e.lookupKey "value").bind (fun v => v.lookupKey "columns")
  | _ => none

/-- The `rows` list of the table value inside an encoded attribute. -/
def attrTableRows (a : Json) : Option Json :=
  match attrHistoryEntries a with
  | some (e :: _) => (e.lookupKey "value").bind (fun v => v.lookupKey "rows")
  | _ => none

/-! Sample data used by the concrete witnesses: the end-to-end scenario of
the specification (entities `a` and `b`, one `knows` edge from `a` to `b`)
plus a small expenses table. -/

/-- Sample entity row `a` (Alice). -/
def entA : EntityRow := ⟨"a", "Alice", "2024-01-01", "Person", "Adult"⟩

/-- Sample entity row `b` (Bob). -/
def entB : EntityRow := ⟨"b", "Bob", "2024-01-02", "Person", "Adult"⟩

/-- Sample relationship row `a —knows→ b`. -/
def relAB : RelRow := ⟨"a", "b", "knows", "2024-01-01"⟩

/-- Sample expenses table with a foreign-key column. -/
def expDF : DataFrame :=
  ⟨["RelatedEntityID", "Month", "Category", "Amount"],
   [[.str "a", .str "Jan", .str "food", .int 100],
    [.str "b", .str "Jan", .str "rent", .int 900]]⟩

/-- Sample pre-filtered expenses rows (foreign-key column already dropped
from the selection, as `create_tabular_attribute` receives them). -/
def expRowsA : DataFrame :=
  ⟨["Month", "Category", "Amount"], [[.str "Jan", .str "food", .int 100]]⟩

/-- Sample attribute table that lacks the `RelatedEntityID` column. -/
def noFkDF : DataFrame := ⟨["SomethingElse"], [[.str "x"]]⟩

/-- Sample clock of a machine running five hours west of UTC. -/
def bugClock : Clock := ⟨"2024-01-01T12:00:00", "2024-01-01T07:00:00"⟩

/-- Extract the payload of a successful build (sample helper). -/
def okOr (e : Except String Json) : Json :=
  match e with
  | .ok p => p
  | .error _ => .str ""

/-- The attribute list of a payload (sample helper). -/
def attrsOf (p : Json) : List Json :=
  match p.lookupKey "attributes" with
  | some (.arr l) => l
  | _ => []

/-- The first attribute of a payload (sample helper). -/
def firstAttr (p : Json) : Json :=
  match p.lookupKey "attributes" with
  | some (.arr (a :: _)) => a
  | _ => .str ""

/-- Sample Phase-1 payload for entity `a` with one expenses attribute. -/
def p1A : Json :=
  okOr (construct_payload "2024-06-01T00:00:00" "a" entA [relAB] expDF
    DataFrame.emptyFrame [] false false)

/-! Helper lemmas shared by the claim theorems. -/

/-- ASCII lower-casing is idempotent on characters. -/
theorem char_toLower_idem (c : Char) : c.toLower.toLower = c.toLower := by
  unfold Char.toLower
  by_cases h : c.toNat ≥ 65 ∧ c.toNat ≤ 90
  · rw [if_pos h]
    generalize c.toNat = n at h
    obtain ⟨h1, h2⟩ := h
    interval_cases n <;> decide
  · rw [if_neg h, if_neg h]

/-- `pyLower` is idempotent: a lower-cased string has no upper-case ASCII
letter left, so lower-casing it again changes nothing. -/
theorem pyLower_idem (s : String) : pyLower (pyLower s) = pyLower s := by
  unfold pyLower
  refine congrArg String.mk ?_
  show (s.data.map Char.toLower).map Char.toLower = s.data.map Char.toLower
  rw [List.map_map]
  exact List.map_congr_left fun c _ => char_toLower_idem c

/-- `List.contains` agrees with membership for strings. -/
theorem contains_iff_mem (l : List String) (x : String) :
    l.contains x = true ↔ x ∈ l := by
  rw [List.contains, List.elem_iff]

/-! Claim theorems. -/

/-- C5: for a fixed pair of source and target identifiers, the synthesized
relationship-instance identifier is a pure function of the pair (hence
identical across repeated builds), equals `rel-<source>-to-<target>`
lower-cased, and is entirely lower-case (lower-casing it again is the
identity). -/
theorem rel_id_deterministic_lowercase (s t : String) :
    rel_id s t = pyLower ("rel-" ++ s ++ "-to-" ++ t) ∧
    pyLower (rel_id s t) = rel_id s t := by
  refine ⟨rfl, ?_⟩
  unfold rel_id
  exact pyLower_idem ("rel-" ++ s ++ "-to-" ++ t)

/-- C3: a response that is not a 2xx success but whose body contains
"already exists" is reported as a success by `send_request`, so a Phase-1
run in which every entity draws such a response (or a genuine 2xx success)
reports all-success. -/
theorem duplicate_create_tolerated :
    (∀ (status : Nat) (body : String), ¬(200 ≤ status ∧ status < 300) →
      pyIn "already exists" body = true →
      send_request_outcome status body = true) ∧
    (∀ (entities : List EntityRow) (responses : String → Nat × String),
      (∀ e ∈ entities, ¬(200 ≤ (responses e.id).1 ∧ (responses e.id).1 < 300) ∧
        pyIn "already exists" (responses e.id).2 = true) →
      (phase1_results entities responses).all (fun b => b) = true) := by
  have base : ∀ (status : Nat) (body : String), ¬(200 ≤ status ∧ status < 300) →
      pyIn "already exists" body = true → send_request_outcome status body = true := by
    intro status body hs hb
    unfold send_request_outcome
    have h200 : status ≠ 200 := fun h => hs (by omega)
    have h201 : status ≠ 201 := fun h => hs (by omega)
    simp [h200, h201, hb]
  refine ⟨base, ?_⟩
  intro entities responses hall
  rw [List.all_eq_true]
  intro b hb
  rw [phase1_results, List.mem_map] at hb
  obtain ⟨e, he, rfl⟩ := hb
  exact base _ _ (hall e he).1 (hall e he).2

/-- Witness for C3 at a concrete duplicate-create response. -/
theorem duplicate_create_tolerated_witness :
    send_request_outcome 409 "entity already exists" = true :=
  duplicate_create_tolerated.1 409 "entity already exists" (by omega) (by decide)

/-- C6 (divergence witness): the attribute envelope's `startTime` is the
rendering of the *local* wall-clock reading with a "Z" suffix appended, not
the UTC reading: on a machine five hours west of UTC the emitted timestamp
differs from the UTC one the "Z" designator announces. -/
theorem attribute_validFrom_local_not_utc :
    ∃ a : Json,
      create_tabular_attribute (datetime_now_isoformat bugClock) "expenses"
        expRowsA ["Month", "Category", "Amount"] = .ok (some a) ∧
      (attrHistoryEntries a).map List.length = some 1 ∧
      attrValidTo a = none ∧
      attrValidFrom a = some (.str (bugClock.localNowIso ++ "Z")) ∧
      attrValidFrom a ≠ some (.str (bugClock.utcNowIso ++ "Z")) ∧
      bugClock.localNowIso ≠ bugClock.utcNowIso := by
  refine ⟨tabular_attr_json (datetime_now_isoformat bugClock) "expenses"
    ["Month", "Category", "Amount"] [["Jan", "food", "100"]], rfl, rfl, rfl, rfl, ?_,
    by decide⟩
  intro h
  have h1 : some (Json.str "2024-01-01T07:00:00Z") =
      some (Json.str "2024-01-01T12:00:00Z") := h
  injection h1 with h2
  injection h2 with h3
  exact absurd h3 (by decide)

/-- An attribute block that yields an attribute value always carries a
non-empty table: the encoder is only reached through the non-empty guard,
and it reproduces one output row per filtered input row. -/
theorem entity_attr_ok_some_rows (now key eid : String) (src : DataFrame)
    (cols : List String) (a : Json)
    (h : entity_attr_for now key src eid cols = .ok (some a)) :
    ∃ l, attrTableRows a = some (Json.arr l) ∧ l ≠ [] := by
  unfold entity_attr_for at h
  set f := (if !src.rows.isEmpty && src.cols.contains "RelatedEntityID" then
    src.filterEq "RelatedEntityID" eid else DataFrame.emptyFrame) with hf
  by_cases hfe : f.rows.isEmpty
  · rw [if_pos hfe] at h
    exact Option.noConfusion (Except.ok.inj h)
  · rw [if_neg hfe] at h
    unfold create_tabular_attribute at h
    rw [if_neg hfe] at h
    cases hp : f.projectStr cols with
    | error er => rw [hp] at h; exact Except.noConfusion h
    | ok rows =>
      rw [hp] at h
      have ha : tabular_attr_json now key cols rows = a :=
        Option.some.inj (Except.ok.inj h)
      subst ha
      refine ⟨_, rfl, ?_⟩
      unfold DataFrame.projectStr at hp
      by_cases hg : cols.all (fun c => f.cols.contains c) = true
      · rw [if_pos hg] at hp
        have hrows : rows = f.rows.map (fun r => cols.map (fun c => (f.cell r c).pyStr)) :=
          (Except.ok.inj hp).symm
        subst hrows
        intro hnil
        rw [List.map_eq_nil_iff, List.map_eq_nil_iff] at hnil
        rw [hnil] at hfe
        exact hfe rfl
      · rw [if_neg hg] at hp
        exact Except.noConfusion hp

/-- C9: the attribute encoder applied to a frame with no rows returns
absent, for every key and every requested column list; consequently every
attribute present in any constructed payload carries a non-empty table,
i.e. no empty-table attribute is ever emitted. -/
theorem empty_rows_attribute_absent :
    (∀ (now key : String) (cols colNames : List String),
      create_tabular_attribute now key ⟨cols, []⟩ colNames = .ok none) ∧
    (∀ (now entity_id : String) (entity : EntityRow) (relationships : List RelRow)
      (expenses income : DataFrame) (metadata : Metadata)
      (include_relationships exclude_kind : Bool) (p : Json) (ats : List Json) (a : Json),
      construct_payload now entity_id entity relationships expenses income metadata
        include_relationships exclude_kind = .ok p →
      p.lookupKey "attributes" = some (.arr ats) → a ∈ ats →
      attrTableRows a ≠ some (Json.arr [])) := by
  constructor
  · intro now key cols colNames
    rfl
  · intro now entity_id entity relationships expenses income metadata ir ek p ats a h hats hmem
    unfold construct_payload at h
    cases hex : entity_attr_for now "expenses" expenses entity_id ["Month", "Category", "Amount"] with
    | error er => rw [hex] at h; exact Except.noConfusion h
    | ok oex =>
      cases hin : entity_attr_for now "income" income entity_id ["Month", "Source", "Amount"] with
      | error er => rw [hex, hin] at h; exact Except.noConfusion h
      | ok oin =>
        rw [hex, hin] at h
        have hp : Json.obj (payload_fields entity_id entity
            (meta_entries entity_id metadata) (oex.toList ++ oin.toList)
            (if ir then ((relationships.filter (fun r => r.from_id == entity_id)).map
              (rel_payload_json entity_id)) else []) ek) = p :=
          Except.ok.inj h
        subst hp
        have hlook : lookupPairs "attributes" (payload_fields entity_id entity
            (meta_entries entity_id metadata) (oex.toList ++ oin.toList)
            (if ir then ((relationships.filter (fun r => r.from_id == entity_id)).map
              (rel_payload_json entity_id)) else []) ek) =
            some (.arr (oex.toList ++ oin.toList)) := rfl
        rw [Json.lookupKey, hlook] at hats
        have hats2 : oex.toList ++ oin.toList = ats := by
          have := Option.some.inj hats
          injection this
        subst hats2
        rw [List.mem_append] at hmem
        cases hmem with
        | inl hm =>
          cases oex with
          | none => simp at hm
          | some ax =>
            rw [Option.toList_some, List.mem_singleton] at hm
            subst hm
            obtain ⟨l, hl, hlne⟩ := entity_attr_ok_some_rows now "expenses" entity_id
              expenses ["Month", "Category", "Amount"] a hex
            rw [hl]
            intro heq
            have := Option.some.inj heq
            injection this with h2
            exact hlne h2
        | inr hm =>
          cases oin with
          | none => simp at hm
          | some ax =>
            rw [Option.toList_some, List.mem_singleton] at hm
            subst hm
            obtain ⟨l, hl, hlne⟩ := entity_attr_ok_some_rows now "income" entity_id
              income ["Month", "Source", "Amount"] a hin
            rw [hl]
            intro heq
            have := Option.some.inj heq
            injection this with h2
            exact hlne h2

/-- Witness for C9: the encoder on a rowless frame returns absent, and the
expenses attribute of the sample payload carries a non-empty table. -/
theorem empty_rows_attribute_absent_witness :
    create_tabular_attribute "2024-06-01T00:00:00" "expenses" ⟨["Month"], []⟩ ["Month"] = .ok none ∧
    attrTableRows (firstAttr p1A) ≠ some (Json.arr []) :=
  ⟨empty_rows_attribute_absent.1 "2024-06-01T00:00:00" "expenses" ["Month"] ["Month"],
   empty_rows_attribute_absent.2 "2024-06-01T00:00:00" "a" entA [relAB] expDF
     DataFrame.emptyFrame [] false false p1A (attrsOf p1A) (firstAttr p1A)
     rfl rfl (List.mem_cons_self _ _)⟩

/-- C7: for a frame with at least one row, if every requested column is
present, the encoder succeeds and the encoded table's `columns` list is
exactly the requested column list while each output row is the
corresponding input row's cells at exactly those columns, stringified, in
the input's row order and the requested column order. -/
theorem projection_correctness (now key : String) (df : DataFrame) (cols : List String)
    (hne : df.rows ≠ []) (hcols : ∀ c ∈ cols, c ∈ df.cols) :
    ∃ rows : List (List String),
      create_tabular_attribute now key df cols =
        .ok (some (tabular_attr_json now key cols rows)) ∧
      attrTableColumns (tabular_attr_json now key cols rows) =
        some (.arr (cols.map .str)) ∧
      attrTableRows (tabular_attr_json now key cols rows) =
        some (.arr (rows.map (fun r => Json.arr (r.map Json.str)))) ∧
      rows = df.rows.map (fun r => cols.map (fun c => (df.cell r c).pyStr)) ∧
      rows.length = df.rows.length ∧
      (∀ (i j : Nat) (hi : i < df.rows.length) (hj : j < cols.length)
        (hi2 : i < rows.length) (hj2 : j < (rows.get ⟨i, hi2⟩).length),
        (rows.get ⟨i, hi2⟩).get ⟨j, hj2⟩ =
          (df.cell (df.rows.get ⟨i, hi⟩) (cols.get ⟨j, hj⟩)).pyStr) := by
  have hempty : df.rows.isEmpty = false := by
    simpa [List.isEmpty_iff] using hne
  have hguard : cols.all (fun c => df.cols.contains c) = true := by
    rw [List.all_eq_true]
    intro c hc
    rw [contains_iff_mem]
    exact hcols c hc
  refine ⟨df.rows.map (fun r => cols.map (fun c => (df.cell r c).pyStr)),
    ?_, rfl, rfl, rfl, List.length_map _ _, ?_⟩
  · unfold create_tabular_attribute DataFrame.projectStr
    rw [hempty, if_pos hguard]
    rfl
  · intro i j hi hj hi2 hj2
    simp [List.get_eq_getElem, List.getElem_map]

/-- Witness for C7 at the sample pre-filtered expenses frame. -/
theorem projection_correctness_witness :
    ∃ rows : List (List String),
      create_tabular_attribute "2024-06-01T00:00:00" "expenses" expRowsA
        ["Month", "Category", "Amount"] =
        .ok (some (tabular_attr_json "2024-06-01T00:00:00" "expenses"
          ["Month", "Category", "Amount"] rows)) ∧
      attrTableColumns (tabular_attr_json "2024-06-01T00:00:00" "expenses"
        ["Month", "Category", "Amount"] rows) =
        some (.arr (["Month", "Category", "Amount"].map .str)) ∧
      attrTableRows (tabular_attr_json "2024-06-01T00:00:00" "expenses"
        ["Month", "Category", "Amount"] rows) =
        some (.arr (rows.map (fun r => Json.arr (r.map Json.str)))) ∧
      rows = expRowsA.rows.map (fun r =>
        ["Month", "Category", "Amount"].map (fun c => (expRowsA.cell r c).pyStr)) ∧
      rows.length = expRowsA.rows.length ∧
      (∀ (i j : Nat) (hi : i < expRowsA.rows.length)
        (hj : j < (["Month", "Category", "Amount"] : List String).length)
        (hi2 : i < rows.length) (hj2 : j < (rows.get ⟨i, hi2⟩).length),
        (rows.get ⟨i, hi2⟩).get ⟨j, hj2⟩ =
          (expRowsA.cell (expRowsA.rows.get ⟨i, hi⟩)
            ((["Month", "Category", "Amount"] : List String).get ⟨j, hj⟩)).pyStr) :=
  projection_correctness "2024-06-01T00:00:00" "expenses" expRowsA
    ["Month", "Category", "Amount"] (by decide) (by decide)

/-- A successful build always yields the ordered field list of
`payload_fields`: six base fields, then `kind` exactly when it is not
excluded. -/
theorem construct_payload_ok_shape (now entity_id : String) (entity : EntityRow)
    (relationships : List RelRow) (expenses income : DataFrame) (metadata : Metadata)
    (ir ek : Bool) (p : Json)
    (h : construct_payload now entity_id entity relationships expenses income
      metadata ir ek = .ok p) :
    ∃ attrList : List Json,
      p = .obj (payload_fields entity_id entity (meta_entries entity_id metadata)
        attrList
        (if ir then ((relationships.filter (fun r => r.from_id == entity_id)).map
          (rel_payload_json entity_id)) else []) ek) := by
  unfold construct_payload at h
  cases hex : entity_attr_for now "expenses" expenses entity_id
      ["Month", "Category", "Amount"] with
  | error er => rw [hex] at h; exact Except.noConfusion h
  | ok oex =>
    cases hin : entity_attr_for now "income" income entity_id
        ["Month", "Source", "Amount"] with
    | error er => rw [hex, hin] at h; exact Except.noConfusion h
    | ok oin =>
      rw [hex, hin] at h
      exact ⟨oex.toList ++ oin.toList, (Except.ok.inj h).symm⟩

/-- C4: a payload built without `exclude_kind` (the spec's
`includeKind=true`) carries the two-level kind classification under its
`kind` field, and a payload built with `exclude_kind` (the spec's
`includeKind=false`) has no `kind` field, whatever the other inputs. -/
theorem kind_inclusion_invariant (now entity_id : String) (entity : EntityRow)
    (relationships : List RelRow) (expenses income : DataFrame) (metadata : Metadata)
    (include_relationships exclude_kind : Bool) (p : Json)
    (h : construct_payload now entity_id entity relationships expenses income
      metadata include_relationships exclude_kind = .ok p) :
    p.lookupKey "kind" = if exclude_kind then none
      else some (.obj [("major", .str entity.kind_major),
                       ("minor", .str entity.kind_minor)]) := by
  obtain ⟨attrList, rfl⟩ := construct_payload_ok_shape now entity_id entity
    relationships expenses income metadata include_relationships exclude_kind p h
  cases exclude_kind with
  | false => rfl
  | true => rfl

/-- Witness for C4: the sample Phase-1 payload (kind not excluded) carries
the sample entity's kind. -/
theorem kind_inclusion_invariant_witness :
    p1A.lookupKey "kind" =
      some (.obj [("major", .str "Person"), ("minor", .str "Adult")]) :=
  kind_inclusion_invariant "2024-06-01T00:00:00" "a" entA [relAB] expDF
    DataFrame.emptyFrame [] false false p1A rfl

/-- C2 (counterexample): the Phase-1 payload of the sample entity *does*
carry a `relationships` field — its value is the empty list — so the field
is not absent as claimed. -/
theorem phase1_relationships_field_present_cex :
    (construct_payload "2024-06-01T00:00:00" "a" entA [relAB] DataFrame.emptyFrame
      DataFrame.emptyFrame [] false false).map (fun p => p.lookupKey "relationships") =
      .ok (some (Json.arr [])) ∧
    (construct_payload "2024-06-01T00:00:00" "a" entA [relAB] DataFrame.emptyFrame
      DataFrame.emptyFrame [] false false).map (fun p => p.lookupKey "relationships") ≠
      .ok none := by
  refine ⟨rfl, ?_⟩
  intro h
  have h2 : (Except.ok (some (Json.arr [])) : Except String (Option Json)) = .ok none := h
  exact Option.noConfusion (Except.ok.inj h2)

/-- C2 (amended): every Phase-1 payload (`include_relationships=false`,
kind not excluded) carries a `relationships` field whose value is the
empty list, and carries a `kind` field. -/
theorem phase1_payload_empty_relationships_and_kind (now entity_id : String)
    (entity : EntityRow) (relationships : List RelRow) (expenses income : DataFrame)
    (metadata : Metadata) (p : Json)
    (h : construct_payload now entity_id entity relationships expenses income
      metadata false false = .ok p) :
    p.lookupKey "relationships" = some (Json.arr []) ∧
    (p.lookupKey "kind").isSome = true := by
  obtain ⟨attrList, rfl⟩ := construct_payload_ok_shape now entity_id entity
    relationships expenses income metadata false false p h
  exact ⟨rfl, rfl⟩

/-- Witness for the amended C2 at the sample Phase-1 payload. -/
theorem phase1_payload_empty_relationships_and_kind_witness :
    p1A.lookupKey "relationships" = some (Json.arr []) ∧
    (p1A.lookupKey "kind").isSome = true :=
  phase1_payload_empty_relationships_and_kind "2024-06-01T00:00:00" "a" entA [relAB]
    expDF DataFrame.emptyFrame [] p1A rfl

/-- C8: the `name` field of every payload is a single time-versioned entry
whose `startTime` is the entity's own recorded `start_time` column; the
encoding clock `now` is universally quantified and absent from the
conclusion, so the name's validity start never depends on the wall-clock
reading. -/
theorem name_validFrom_is_entity_start_time (now entity_id : String)
    (entity : EntityRow) (relationships : List RelRow) (expenses income : DataFrame)
    (metadata : Metadata) (include_relationships exclude_kind : Bool) (p : Json)
    (h : construct_payload now entity_id entity relationships expenses income
      metadata include_relationships exclude_kind = .ok p) :
    p.lookupKey "name" = some (.obj [("startTime", .str entity.start_time),
                                     ("value", .str entity.name)]) := by
  obtain ⟨attrList, rfl⟩ := construct_payload_ok_shape now entity_id entity
    relationships expenses income metadata include_relationships exclude_kind p h
  rfl

/-- Witness for C8 at the sample Phase-1 payload. -/
theorem name_validFrom_is_entity_start_time_witness :
    p1A.lookupKey "name" = some (.obj [("startTime", .str "2024-01-01"),
                                       ("value", .str "Alice")]) :=
  name_validFrom_is_entity_start_time "2024-06-01T00:00:00" "a" entA [relAB] expDF
    DataFrame.emptyFrame [] false false p1A rfl

/-- An attribute block whose source table lacks the `RelatedEntityID`
column contributes no attribute and raises nothing: the guarded membership
test substitutes an empty frame instead of a failing column lookup. -/
theorem entity_attr_none_of_missing_col (now key eid : String) (cols : List String)
    (src : DataFrame) (h : "RelatedEntityID" ∉ src.cols) :
    entity_attr_for now key src eid cols = .ok none := by
  have hc : src.cols.contains "RelatedEntityID" = false := by
    rw [← Bool.not_eq_true, contains_iff_mem]
    exact h
  unfold entity_attr_for
  rw [hc]
  simp [DataFrame.emptyFrame]

/-- C10: for every entity and every pair of attribute tables lacking a
`RelatedEntityID` column — non-empty or not — the payload build succeeds
(no error is raised) and emits no attribute at all. -/
theorem missing_fk_column_safe (now entity_id : String) (entity : EntityRow)
    (relationships : List RelRow) (metadata : Metadata)
    (include_relationships exclude_kind : Bool) (expenses income : DataFrame)
    (hexp : "RelatedEntityID" ∉ expenses.cols) (hinc : "RelatedEntityID" ∉ income.cols) :
    ∃ p, construct_payload now entity_id entity relationships expenses income
      metadata include_relationships exclude_kind = .ok p ∧
      p.lookupKey "attributes" = some (Json.arr []) := by
  have h1 := entity_attr_none_of_missing_col now "expenses" entity_id
    ["Month", "Category", "Amount"] expenses hexp
  have h2 := entity_attr_none_of_missing_col now "income" entity_id
    ["Month", "Source", "Amount"] income hinc
  refine ⟨Json.obj (payload_fields entity_id entity (meta_entries entity_id metadata)
    [] (if include_relationships then
      ((relationships.filter (fun r => r.from_id == entity_id)).map
        (rel_payload_json entity_id)) else []) exclude_kind), ?_, rfl⟩
  unfold construct_payload
  rw [h1, h2]
  rfl

/-- Witness for C10: a non-empty table without the foreign-key column
yields a successful, attribute-free build. -/
theorem missing_fk_column_safe_witness :
    ∃ p, construct_payload "2024-06-01T00:00:00" "a" entA [relAB] noFkDF noFkDF
      [] false false = .ok p ∧
      p.lookupKey "attributes" = some (Json.arr []) :=
  missing_fk_column_safe "2024-06-01T00:00:00" "a" entA [relAB] [] false false
    noFkDF noFkDF (by decide) (by decide)

/-- C1: under the input invariant that every relationship source refers to
a row of the entity table, the identifiers receiving a Phase-2 update call
are exactly the identifiers occurring in the `from_id` column of the
relationships table; in particular an entity none of whose relationships
originate from it never receives a Phase-2 call (this half needs no
invariant). -/
theorem phase2_selection_exact (entities : List EntityRow) (relationships : List RelRow)
    (href : ∀ r ∈ relationships, ∃ e ∈ entities, e.id = r.from_id) :
    (∀ x, x ∈ phase2_targets entities relationships ↔
      ∃ r ∈ relationships, r.from_id = x) ∧
    (∀ e ∈ entities, (∀ r ∈ relationships, r.from_id ≠ e.id) →
      e.id ∉ phase2_targets entities relationships) := by
  have hmem : ∀ x, x ∈ phase2_targets entities relationships ↔
      (∃ e ∈ entities, e.id = x) ∧ (∃ r ∈ relationships, r.from_id = x) := by
    intro x
    simp only [phase2_targets, List.mem_map, List.mem_filter]
    constructor
    · rintro ⟨e, ⟨he, hc⟩, rfl⟩
      rw [contains_iff_mem, List.mem_dedup, List.mem_map] at hc
      obtain ⟨r, hr, hre⟩ := hc
      exact ⟨⟨e, he, rfl⟩, ⟨r, hr, hre⟩⟩
    · rintro ⟨⟨e, he, rfl⟩, ⟨r, hr, hrx⟩⟩
      refine ⟨e, ⟨he, ?_⟩, rfl⟩
      rw [contains_iff_mem, List.mem_dedup, List.mem_map]
      exact ⟨r, hr, hrx⟩
  constructor
  · intro x
    rw [hmem]
    constructor
    · exact fun h => h.2
    · intro h2
      obtain ⟨r, hr, hrx⟩ := h2
      obtain ⟨e, he, hex⟩ := href r hr
      exact ⟨⟨e, he, hex.trans hrx⟩, r, hr, hrx⟩
  · intro e he hnone hin
    rw [hmem] at hin
    obtain ⟨-, r, hr, hrx⟩ := hin
    exact hnone r hr hrx

/-- Witness for C1 at the sample scenario: `a` has an outgoing edge and is
a Phase-2 target, `b` has none and is not. -/
theorem phase2_selection_exact_witness :
    ("a" ∈ phase2_targets [entA, entB] [relAB] ↔
      ∃ r ∈ [relAB], r.from_id = "a") ∧
    "b" ∉ phase2_targets [entA, entB] [relAB] :=
  ⟨(phase2_selection_exact [entA, entB] [relAB] (by decide)).1 "a",
   (phase2_selection_exact [entA, entB] [relAB] (by decide)).2 entB (by decide)
     (by decide)⟩

end OpenGIN
